import Mathlib

/-!
Verification of the provider-abstraction and response-normalization layer of a
weekly-planning assistant.  The TypeScript source is shallowly embedded:

* the JavaScript string primitives used by the code (`trim`, `startsWith`,
  `endsWith`, `slice(0, -1)`, anchored `replace`) are modelled over `List Char`;
* `JSON.parse` is modelled by an executable recursive-descent parser producing
  a `Json` value (or `none` where `JSON.parse` would throw a SyntaxError);
* network calls are modelled by passing the (single) backend response as an
  explicit argument: each adapter consumes exactly one response, which also
  captures the absence of retries;
* host-dependent behaviour (`Intl.DateTimeFormat` zone validity and output,
  the host locale's `localeCompare` collation) is passed in as parameters;
* thrown JavaScript errors are modelled by `Except JsErr`.
-/

set_option maxRecDepth 8000

/-! ## JavaScript string primitives -/

/-- The backtick character, written via its code point. -/
def btick : Char := Char.ofNat 96

/-- Whitespace as recognised by JSON and by `String.prototype.trim` on the
characters that occur here. -/
def isJsWs (c : Char) : Bool := c == ' ' || c == '\t' || c == '\n' || c == '\r'

/-- Drop leading whitespace. -/
def skipWs : List Char → List Char
  | [] => []
  | c :: cs => if isJsWs c then skipWs cs else c :: cs

/-- `String.prototype.trim`, on character lists. -/
def trimListChars (cs : List Char) : List Char :=
  List.reverse (skipWs (List.reverse (skipWs cs)))

/-- `String.prototype.trim`. -/
def jsTrim (s : String) : String := String.mk (trimListChars s.data)

/-- `pat.isPrefixOf s` on character lists (pattern first). -/
def startsWithL : List Char → List Char → Bool
  | [], _ => true
  | _ :: _, [] => false
  | p :: ps, c :: cs => p == c && startsWithL ps cs

/-- `String.prototype.startsWith`. -/
def jsStartsWith (s pat : String) : Bool := startsWithL pat.data s.data

/-- `String.prototype.endsWith`. -/
def jsEndsWith (s pat : String) : Bool :=
  startsWithL (List.reverse pat.data) (List.reverse s.data)

/-- `s.slice(0, -1)`: drop the last character. -/
def jsSliceDropLast (s : String) : String := String.mk s.data.dropLast

/-- Drop the last `n` characters of a list. -/
def dropRightL (n : Nat) (cs : List Char) : List Char := cs.take (cs.length - n)

/-- Substring occurrence, `s` contains `pat`. -/
def strContains (pat s : String) : Prop :=
  ∃ pre post, s.data = pre ++ pat.data ++ post

/-- `pat` is a suffix of `s`. -/
def strSuffix (pat s : String) : Prop :=
  ∃ t, t ++ pat.data = s.data

/-! ## JSON values and `JSON.parse` -/

/-- Runtime JSON values.  Numbers keep their source lexeme: none of the
modelled code inspects numeric values. -/
inductive Json where
  | null : Json
  | bool (b : Bool) : Json
  | num (lexeme : String) : Json
  | str (s : String) : Json
  | arr (elems : List Json) : Json
  | obj (members : List (String × Json)) : Json

def lbraceChar : Char := Char.ofNat 123
def rbraceChar : Char := Char.ofNat 125

/-- Value of a hexadecimal digit. -/
def hexVal (c : Char) : Option Nat :=
  if '0' ≤ c ∧ c ≤ '9' then some (c.toNat - '0'.toNat)
  else if 'a' ≤ c ∧ c ≤ 'f' then some (c.toNat - 'a'.toNat + 10)
  else if 'A' ≤ c ∧ c ≤ 'F' then some (c.toNat - 'A'.toNat + 10)
  else none

/-- Body of a JSON string after the opening quote: returns the decoded
characters and the input following the closing quote. -/
def parseStrBody : List Char → Option (List Char × List Char)
  | [] => none
  | '"' :: rest => some ([], rest)
  | '\\' :: '"' :: rs => (fun p => ('"' :: p.1, p.2)) <$> parseStrBody rs
  | '\\' :: '\\' :: rs => (fun p => ('\\' :: p.1, p.2)) <$> parseStrBody rs
  | '\\' :: '/' :: rs => (fun p => ('/' :: p.1, p.2)) <$> parseStrBody rs
  | '\\' :: 'b' :: rs => (fun p => (Char.ofNat 8 :: p.1, p.2)) <$> parseStrBody rs
  | '\\' :: 'f' :: rs => (fun p => (Char.ofNat 12 :: p.1, p.2)) <$> parseStrBody rs
  | '\\' :: 'n' :: rs => (fun p => ('\n' :: p.1, p.2)) <$> parseStrBody rs
  | '\\' :: 'r' :: rs => (fun p => ('\r' :: p.1, p.2)) <$> parseStrBody rs
  | '\\' :: 't' :: rs => (fun p => ('\t' :: p.1, p.2)) <$> parseStrBody rs
  | '\\' :: 'u' :: h1 :: h2 :: h3 :: h4 :: rs =>
    match hexVal h1, hexVal h2, hexVal h3, hexVal h4 with
    | some a, some b, some c, some d =>
      (fun p => (Char.ofNat (((a * 16 + b) * 16 + c) * 16 + d) :: p.1, p.2)) <$> parseStrBody rs
    | _, _, _, _ => none
  | '\\' :: _ => none
  | c :: rest =>
    if c.toNat < 32 then none
    else (fun p => (c :: p.1, p.2)) <$> parseStrBody rest

/-- Take a maximal run of decimal digits. -/
def takeDigits : List Char → List Char × List Char
  | [] => ([], [])
  | c :: cs =>
    if c.isDigit then
      let (d, r) := takeDigits cs
      (c :: d, r)
    else ([], c :: cs)

/-- Exponent digits (with optional sign) of a JSON number. -/
def parseExpDigits (lex : List Char) (cs : List Char) : Option (List Char × List Char) :=
  let (sgn, r) := match cs with
    | '+' :: r => (['+'], r)
    | '-' :: r => (['-'], r)
    | _ => (([] : List Char), cs)
  let (ds, r2) := takeDigits r
  if ds = [] then none else some (lex ++ sgn ++ ds, r2)

/-- Optional exponent part of a JSON number. -/
def parseExpPart (lex : List Char) (cs : List Char) : Option (List Char × List Char) :=
  match cs with
  | 'e' :: r => parseExpDigits (lex ++ ['e']) r
  | 'E' :: r => parseExpDigits (lex ++ ['E']) r
  | _ => some (lex, cs)

/-- Optional fraction then exponent of a JSON number. -/
def parseNumTail (lex : List Char) (cs : List Char) : Option (List Char × List Char) :=
  match cs with
  | '.' :: r =>
    let (ds, r2) := takeDigits r
    if ds = [] then none else parseExpPart (lex ++ '.' :: ds) r2
  | _ => parseExpPart lex cs

/-- Integer part (after an optional sign) of a JSON number. -/
def parseNumAfterSign (sgn : List Char) (cs : List Char) : Option (List Char × List Char) :=
  match cs with
  | '0' :: r => parseNumTail (sgn ++ ['0']) r
  | c :: r =>
    if c.isDigit then
      let (ds, r2) := takeDigits r
      parseNumTail (sgn ++ c :: ds) r2
    else none
  | [] => none

/-- A JSON number: returns its lexeme and the remaining input. -/
def parseNumber (cs : List Char) : Option (List Char × List Char) :=
  match cs with
  | '-' :: cs1 => parseNumAfterSign ['-'] cs1
  | _ => parseNumAfterSign [] cs

mutual

/-- A JSON value (fuel-indexed recursive descent). -/
def parseValue : Nat → List Char → Option (Json × List Char)
  | 0, _ => none
  | Nat.succ fuel, cs =>
    match skipWs cs with
    | 'n' :: 'u' :: 'l' :: 'l' :: rest => some (Json.null, rest)
    | 't' :: 'r' :: 'u' :: 'e' :: rest => some (Json.bool true, rest)
    | 'f' :: 'a' :: 'l' :: 's' :: 'e' :: rest => some (Json.bool false, rest)
    | '"' :: rest =>
      match parseStrBody rest with
      | some (content, r) => some (Json.str (String.mk content), r)
      | none => none
    | '[' :: rest =>
      match skipWs rest with
      | ']' :: r => some (Json.arr [], r)
      | _ =>
        match parseElems fuel rest with
        | some (es, r) => some (Json.arr es, r)
        | none => none
    | c :: rest =>
      if c = lbraceChar then
        match skipWs rest with
        | d :: r2 =>
          if d = rbraceChar then some (Json.obj [], r2)
          else
            match parseMembers fuel rest with
            | some (ms, r) => some (Json.obj ms, r)
            | none => none
        | [] => none
      else
        match parseNumber (c :: rest) with
        | some (lex, r) => some (Json.num (String.mk lex), r)
        | none => none
    | [] => none

/-- Comma-separated JSON values terminated by a closing bracket. -/
def parseElems : Nat → List Char → Option (List Json × List Char)
  | 0, _ => none
  | Nat.succ fuel, cs =>
    match parseValue fuel cs with
    | none => none
    | some (v, r) =>
      match skipWs r with
      | ',' :: r2 =>
        match parseElems fuel r2 with
        | some (vs, r3) => some (v :: vs, r3)
        | none => none
      | ']' :: r2 => some ([v], r2)
      | _ => none

/-- Comma-separated JSON object members terminated by a closing brace. -/
def parseMembers : Nat → List Char → Option (List (String × Json) × List Char)
  | 0, _ => none
  | Nat.succ fuel, cs =>
    match skipWs cs with
    | '"' :: rest =>
      match parseStrBody rest with
      | none => none
      | some (key, r) =>
        match skipWs r with
        | ':' :: r2 =>
          match parseValue fuel r2 with
          | none => none
          | some (v, r3) =>
            match skipWs r3 with
            | d :: r4 =>
              if d = ',' then
                match parseMembers fuel r4 with
                | some (ms, r5) => some ((String.mk key, v) :: ms, r5)
                | none => none
              else if d = rbraceChar then some ([(String.mk key, v)], r4)
              else none
            | [] => none
        | _ => none
    | _ => none

end

/-- `JSON.parse`: `none` models a thrown SyntaxError. -/
def JSON.parse (s : String) : Option Json :=
  match parseValue (s.data.length + 1) s.data with
  | some (v, rest) => if skipWs rest = [] then some v else none
  | none => none


/-! ## Data model (`types.ts`) -/

/-- `ApiDayPlan` from `types.ts`. -/
structure ApiDayPlan where
  dayName : String
  tasks : List String
  contentIdeas : List String
deriving DecidableEq

/-- `ApiWeeklyPlanResponse` from `types.ts`. -/
structure ApiWeeklyPlanResponse where
  refinedGoal : String
  schedule : List ApiDayPlan
deriving DecidableEq

/-- `AppSettings` from `types.ts`.  The `ApiProvider` union type is erased at
runtime, so `provider` is a plain string; `baseUrl` is optional. -/
structure AppSettings where
  provider : String
  apiKey : String
  model : String
  timezone : String
  baseUrl : Option String

/-- Thrown JavaScript errors, as observed by a caller of the modelled code:
`jsError` is a `new Error(msg)` thrown by the repository code, `jsRangeError`
a platform `RangeError` (invalid time zone), `jsSyntaxError` the SyntaxError
thrown by `JSON.parse` (carrying the offending text). -/
inductive JsErr where
  | jsError (msg : String) : JsErr
  | jsRangeError (msg : String) : JsErr
  | jsSyntaxError (offending : String) : JsErr
deriving DecidableEq

/-! ## Spec-side conformance (refinement comparison)

Modelled from the spec: the `WeeklyPlanResponse` shape — string `refinedGoal`
and an array `schedule` of `{dayName, tasks, contentIdeas}` entries.  The
source performs no such check (its `as ApiWeeklyPlanResponse` is a
compile-time cast), so this decoder exists only to compare the spec's
"conformant JSON" wording against what the code actually returns. -/

/-- JavaScript property lookup on a parsed JSON object (later duplicate keys
win, as in `JSON.parse`). -/
def jsonLookup (kvs : List (String × Json)) (k : String) : Option Json :=
  match (kvs.reverse).find? (fun kv => kv.1 == k) with
  | some kv => some kv.2
  | none => none

/-- Modelled from the spec: a JSON array of strings. -/
def specDecodeStringList : Json → Option (List String)
  | Json.arr es => es.mapM (fun e => match e with | Json.str s => some s | _ => none)
  | _ => none

/-- Modelled from the spec: one schedule entry. -/
def specDecodeDayPlan (j : Json) : Option ApiDayPlan :=
  match j with
  | Json.obj kvs =>
    match jsonLookup kvs ("dayName"), jsonLookup kvs ("tasks"), jsonLookup kvs ("contentIdeas") with
    | some (Json.str d), some tj, some cj =>
      match specDecodeStringList tj, specDecodeStringList cj with
      | some ts, some cs => some ⟨d, ts, cs⟩
      | _, _ => none
    | _, _, _ => none
  | _ => none

/-- Modelled from the spec: conformance of a parsed JSON value to the
`WeeklyPlanResponse` shape. -/
def specDecodeWeeklyPlan (j : Json) : Option ApiWeeklyPlanResponse :=
  match j with
  | Json.obj kvs =>
    match jsonLookup kvs ("refinedGoal"), jsonLookup kvs ("schedule") with
    | some (Json.str rg), some (Json.arr days) =>
      match days.mapM specDecodeDayPlan with
      | some ds => some ⟨rg, ds⟩
      | none => none
    | _, _ => none
  | _ => none

/-! ## Prompt builder (`buildSystemAndUserPrompt`, lines 35-79)

The template literals are transcribed verbatim; `${...}` interpolation sites
split them into the pieces below. -/

def sysP1 : String :=
  "\n    你是一个专为创作者服务的专业内容策略AI助手。\n    上下文信息：现在是（用户所在时区）："

def sysP2 : String :=
  "。\n    你是一个乐于助人且条理清晰的内容创作效率教练。\n    "

def sysTail : String :=
  "\n  "

def sysJsonNote : String :=
  "IMPORTANT: You MUST return a valid JSON object."

def promptP1 : String :=
  "\n    用户将提供本周的目标说明。\n    你的任务是：\n    1. **目标提炼（关键）**：分析用户的输入。如果用户提到某些目标“已经完成”，请**剔除**它们。提取出用户**还需要完成**的核心目标，并将其重写为一段简洁、专业、结果导向的目标陈述（即 refinedGoal）。\n    2. **时间感知**：根据今天是 "

def promptP2 : String :=
  "，**只生成从今天开始到本周日**的日程表。\n       - 绝对不要生成今天之前的日期的计划。\n       - 如果今天是周日，只生成今天的计划。\n    3. **制定计划**：为剩余的每一天制定可操作的清单任务。\n    4. **创意灵感**：为每一天生成1-2个具体的、富有创意的选题灵感。\n    \n    用户的输入：\""

def promptP3 : String :=
  "\"\n    \n    请务必使用简体中文回复。\n  "

def openaiFormatBlock : String :=
  "\n    \n\n\n    **OUTPUT FORMAT REQUIREMENTS:**\n    You must output a single valid JSON object strictly following this structure:\n    \x7b\n      \"refinedGoal\": \"string summary of remaining goals\",\n      \"schedule\": [\n        \x7b\n          \"dayName\": \"string (e.g. 周五)\",\n          \"tasks\": [\"string\", \"string\"],\n          \"contentIdeas\": [\"string\", \"string\"]\n        \x7d\n      ]\n    \x7d\n    Do not add Markdown formatting (like ```json). Just the raw JSON string.\n    "

def openaiFormatBlockInit : String :=
  "\n    \n\n\n    **OUTPUT FORMAT REQUIREMENTS:**\n    You must output a single valid JSON object strictly following this structure:\n    \x7b\n      \"refinedGoal\": \"string summary of remaining goals\",\n      \"schedule\": [\n        \x7b\n          \"dayName\": \"string (e.g. 周五)\",\n          \"tasks\": [\"string\", \"string\"],\n          \"contentIdeas\": [\"string\", \"string\"]\n        \x7d\n      ]\n    \x7d\n    Do not add Markdown formatting (like ```json). Just the raw JSON string.\n"

def openaiFormatBlockTail : String :=
  "    "

def promptP3Init : String :=
  "\"\n    \n    请务必使用简体中文回复"

def promptP3Tail : String :=
  "。\n  "

def blockPreRefinedGoal : String :=
  "\n    \n\n\n    **OUTPUT FORMAT REQUIREMENTS:**\n    You must output a single valid JSON object strictly following this structure:\n    \x7b\n      \""

def blockPostRefinedGoal : String :=
  "\": \"string summary of remaining goals\",\n      \"schedule\": [\n        \x7b\n          \"dayName\": \"string (e.g. 周五)\",\n          \"tasks\": [\"string\", \"string\"],\n          \"contentIdeas\": [\"string\", \"string\"]\n        \x7d\n      ]\n    \x7d\n    Do not add Markdown formatting (like ```json). Just the raw JSON string.\n    "

def blockPreSchedule : String :=
  "\n    \n\n\n    **OUTPUT FORMAT REQUIREMENTS:**\n    You must output a single valid JSON object strictly following this structure:\n    \x7b\n      \"refinedGoal\": \"string summary of remaining goals\",\n      \""

def blockPostSchedule : String :=
  "\": [\n        \x7b\n          \"dayName\": \"string (e.g. 周五)\",\n          \"tasks\": [\"string\", \"string\"],\n          \"contentIdeas\": [\"string\", \"string\"]\n        \x7d\n      ]\n    \x7d\n    Do not add Markdown formatting (like ```json). Just the raw JSON string.\n    "

def blockPreDayName : String :=
  "\n    \n\n\n    **OUTPUT FORMAT REQUIREMENTS:**\n    You must output a single valid JSON object strictly following this structure:\n    \x7b\n      \"refinedGoal\": \"string summary of remaining goals\",\n      \"schedule\": [\n        \x7b\n          \""

def blockPostDayName : String :=
  "\": \"string (e.g. 周五)\",\n          \"tasks\": [\"string\", \"string\"],\n          \"contentIdeas\": [\"string\", \"string\"]\n        \x7d\n      ]\n    \x7d\n    Do not add Markdown formatting (like ```json). Just the raw JSON string.\n    "

def blockPreTasks : String :=
  "\n    \n\n\n    **OUTPUT FORMAT REQUIREMENTS:**\n    You must output a single valid JSON object strictly following this structure:\n    \x7b\n      \"refinedGoal\": \"string summary of remaining goals\",\n      \"schedule\": [\n        \x7b\n          \"dayName\": \"string (e.g. 周五)\",\n          "

def blockPostTasks : String :=
  ": [\"string\", \"string\"],\n          \"contentIdeas\": [\"string\", \"string\"]\n        \x7d\n      ]\n    \x7d\n    Do not add Markdown formatting (like ```json). Just the raw JSON string.\n    "

def blockPreContentIdeas : String :=
  "\n    \n\n\n    **OUTPUT FORMAT REQUIREMENTS:**\n    You must output a single valid JSON object strictly following this structure:\n    \x7b\n      \"refinedGoal\": \"string summary of remaining goals\",\n      \"schedule\": [\n        \x7b\n          \"dayName\": \"string (e.g. 周五)\",\n          \"tasks\": [\"string\", \"string\"],\n          \""

def blockPostContentIdeas : String :=
  "\": [\"string\", \"string\"]\n        \x7d\n      ]\n    \x7d\n    Do not add Markdown formatting (like ```json). Just the raw JSON string.\n    "

def blockPreRawInstr : String :=
  "\n    \n\n\n    **OUTPUT FORMAT REQUIREMENTS:**\n    You must output a single valid JSON object strictly following this structure:\n    \x7b\n      \"refinedGoal\": \"string summary of remaining goals\",\n      \"schedule\": [\n        \x7b\n          \"dayName\": \"string (e.g. 周五)\",\n          \"tasks\": [\"string\", \"string\"],\n          \"contentIdeas\": [\"string\", \"string\"]\n        \x7d\n      ]\n    \x7d\n    "

def blockPostRawInstr : String :=
  "\n    "

/-- `buildSystemAndUserPrompt(dateStr, goalText, isOpenAI)`: returns
`(systemInstruction, prompt)`. -/
def buildSystemAndUserPrompt (dateStr goalText : String) (isOpenAI : Bool) : String × String :=
  let systemInstruction :=
    sysP1 ++ dateStr ++ sysP2 ++ (if isOpenAI then sysJsonNote else "") ++ sysTail
  let prompt := promptP1 ++ dateStr ++ promptP2 ++ goalText ++ promptP3
  let prompt := if isOpenAI then prompt ++ openaiFormatBlock else prompt
  (systemInstruction, prompt)

/-! ## Code-fence stripping (`generateWithOpenAI`, lines 149-155) -/

/-- The three-backtick fence. -/
def fence3L : List Char := [btick, btick, btick]

/-- The `json`-tagged fence opener. -/
def fenceJsonL : List Char := [btick, btick, btick, 'j', 's', 'o', 'n']

/-- The `jsonStr` cleaning of lines 150-155: trim, strip a leading
fence marker (the anchored `replace(/^.../, '')`), strip a trailing
three-backtick fence if present (the anchored `replace(/```$/, '')`). -/
def cleanChars (cs : List Char) : List Char :=
  let s := trimListChars cs
  let stripTrail := fun (t : List Char) =>
    if startsWithL (List.reverse fence3L) (List.reverse t) then dropRightL 3 t else t
  if startsWithL fenceJsonL s then stripTrail (s.drop 7)
  else if startsWithL fence3L s then stripTrail (s.drop 3)
  else s

/-- String-level wrapper of `cleanChars`. -/
def cleanJson (content : String) : String := String.mk (cleanChars content.data)

/-- Content wrapped in a leading ```` ```json ```` fence and a trailing
```` ``` ```` fence. -/
def wrapFenceJson (c : String) : String := ("```json") ++ c ++ ("```")

/-- Content wrapped in a bare leading ```` ``` ```` fence and a trailing
```` ``` ```` fence. -/
def wrapFenceBare (c : String) : String := ("```") ++ c ++ ("```")

/-! ## Backend adapters (`generateWithGemini`, `generateWithOpenAI`) -/

/-- Error message of line 84. -/
def geminiMissingKeyMsg : String := "Gemini API Key is missing."

/-- Error message of line 100. -/
def geminiNoResponseMsg : String := "No response from Gemini"

/-- Error message of line 107. -/
def openaiMissingKeyMsg : String := "API Key (sk-...) is required for this provider."

/-- Error message of line 146. -/
def openaiNoContentMsg : String := "No content returned from API."

/-- Line 83: `settings.apiKey || process.env.API_KEY`.  The process
environment variable is an explicit parameter (`none` = undefined); an empty
string is falsy, exactly as in JavaScript. -/
def geminiEffectiveKey (apiKey : String) (envKey : Option String) : String :=
  if apiKey = "" then envKey.getD "" else apiKey

/-- Lines 99-101: handling of the Gemini response text (`response.text`,
`undefined` modelled as `""`, both falsy): empty text throws, otherwise the
text is `JSON.parse`d and returned with an unchecked cast. -/
def geminiProcessText (text : String) : Except JsErr Json :=
  if text = "" then Except.error (JsErr.jsError geminiNoResponseMsg)
  else
    match JSON.parse text with
    | some v => Except.ok v
    | none => Except.error (JsErr.jsSyntaxError text)

/-- `generateWithGemini(goalText, settings, dateStr)`.  The SDK call is
modelled by passing the backend's text payload as `responseText`; the prompt
side is `buildSystemAndUserPrompt dateStr goalText false` and does not affect
the returned value. -/
def generateWithGemini (goalText : String) (st : AppSettings) (dateStr : String)
    (envKey : Option String) (responseText : String) : Except JsErr Json :=
  if geminiEffectiveKey st.apiKey envKey = "" then
    Except.error (JsErr.jsError geminiMissingKeyMsg)
  else geminiProcessText responseText

/-- The canonical OpenAI endpoint (line 110). -/
def openaiDefaultBaseUrl : String := "https://api.openai.com/v1"

/-- Lines 110-111 of `generateWithOpenAI`: default then trim one trailing
slash. -/
def normalizeBaseUrlGenerate (baseUrl : Option String) : String :=
  let b0 := baseUrl.getD ""
  let b1 := if b0 = "" then openaiDefaultBaseUrl else b0
  if jsEndsWith b1 ("/") then jsSliceDropLast b1 else b1

/-- Lines 103-104 of `handleVerifyOpenAI` (SettingsModal.tsx): default then
trim one trailing slash. -/
def normalizeBaseUrlProbe (baseUrl : Option String) : String :=
  let b0 := baseUrl.getD ""
  let b1 := if b0 = "" then openaiDefaultBaseUrl else b0
  if jsEndsWith b1 ("/") then jsSliceDropLast b1 else b1

/-- An HTTP response as seen through `fetch`: status, status text and body
text.  `response.ok` is derived from the status. -/
structure HttpResponse where
  status : Nat
  statusText : String
  bodyText : String

/-- `response.ok`: status in the 2xx range. -/
def httpOk (status : Nat) : Bool := decide (200 ≤ status) && decide (status < 300)

/-- Message of line 139. -/
def openaiRequestFailedMsg (resp : HttpResponse) : String :=
  ("API Request failed: ") ++ toString resp.status ++ (" ") ++ resp.statusText
    ++ (" - ") ++ resp.bodyText

/-- Line 143: `data.choices?.[0]?.message?.content` with optional chaining;
yields a string or nothing.  (A non-string `content` value would make the
subsequent `.trim()` throw a TypeError; no modelled claim exercises that.) -/
def jsonChoicesContent (data : Json) : Option String :=
  match data with
  | Json.obj kvs =>
    match jsonLookup kvs ("choices") with
    | some (Json.arr (first :: _)) =>
      match first with
      | Json.obj m =>
        match jsonLookup m ("message") with
        | some (Json.obj mm) =>
          match jsonLookup mm ("content") with
          | some (Json.str s) => some s
          | _ => none
        | _ => none
      | _ => none
    | _ => none
  | _ => none

/-- Lines 145-157: the empty-content check, the fence stripping and the final
`JSON.parse` with unchecked cast. -/
def openaiContentStage (content : String) : Except JsErr Json :=
  if content = "" then Except.error (JsErr.jsError openaiNoContentMsg)
  else
    match JSON.parse (cleanJson content) with
    | some v => Except.ok v
    | none => Except.error (JsErr.jsSyntaxError (cleanJson content))

/-- `generateWithOpenAI(goalText, settings, dateStr)`.  The single `fetch` is
modelled by passing its response; the request side (endpoint
`normalizeBaseUrlGenerate st.baseUrl ++ "/chat/completions"`, prompts from
`buildSystemAndUserPrompt dateStr goalText true`) does not affect the
returned value.  The `try/catch` of lines 127-162 rethrows, so it is
invisible to the result. -/
def generateWithOpenAI (goalText : String) (st : AppSettings) (dateStr : String)
    (resp : HttpResponse) : Except JsErr Json :=
  if st.apiKey = "" then Except.error (JsErr.jsError openaiMissingKeyMsg)
  else if httpOk resp.status = false then
    Except.error (JsErr.jsError (openaiRequestFailedMsg resp))
  else
    match JSON.parse resp.bodyText with
    | none => Except.error (JsErr.jsSyntaxError resp.bodyText)
    | some data =>
      match jsonChoicesContent data with
      | none => Except.error (JsErr.jsError openaiNoContentMsg)
      | some content => openaiContentStage content

/-! ## Connectivity validators (SettingsModal.tsx, geminiService) -/

/-- A model descriptor from the `/models` body: the probe only reads `id`. -/
structure ModelDescriptor where
  id : String
deriving DecidableEq

/-- `data.data` of the parsed `/models` body: either an array of descriptors
or not an array (the `Array.isArray` check of line 126 fails). -/
inductive ProbeBody where
  | modelsArray (descriptors : List ModelDescriptor) : ProbeBody
  | notAnArray : ProbeBody

/-- The `/models` probe response. -/
structure ProbeResponse where
  status : Nat
  body : ProbeBody

/-- Outcome of a verification handler: the status message on failure, or the
fetched `{value, label}` model list on success. -/
inductive VerifyOutcome where
  | failed (msg : String) : VerifyOutcome
  | verified (models : List (String × String)) : VerifyOutcome
deriving DecidableEq

/-- Lexicographic comparison of character lists (`lexLe a b = true` iff `a`
precedes or equals `b`): used to build concrete instances of the collation
parameter below, not to replace it. -/
def lexLe : List Char → List Char → Bool
  | [], _ => true
  | _ :: _, [] => false
  | x :: xs, y :: ys =>
    if x < y then true else if y < x then false else lexLe xs ys

instance (lc : String → String → Int) :
    DecidableRel (fun (a b : String × String) => lc a.1 b.1 ≤ 0) :=
  fun a b => Int.decLe (lc a.1 b.1) 0

/-- Line 130's `.sort((a, b) => a.value.localeCompare(b.value))`:
`localeCompare` is the host locale's collation (ICU in browsers), so — like
the `Intl.DateTimeFormat` behaviour — it is a parameter `lc` of the
embedding; the engine's stable comparator sort is modelled as insertion sort
over the comparator's non-positive (`a` before-or-equal `b`) relation. -/
def sortByValue (lc : String → String → Int) (l : List (String × String)) :
    List (String × String) :=
  List.insertionSort (fun a b => lc a.1 b.1 ≤ 0) l

/-- A collation obtained by comparing key lists lexicographically: yields
concrete host collations for the witnesses.  `collateOfKey key a b ≤ 0` iff
`lexLe (key a) (key b)`. -/
def collateOfKey (key : String → List Char) (a b : String) : Int :=
  if lexLe (key a) (key b) then (if lexLe (key b) (key a) then 0 else -1) else 1

/-- One possible host collation, with ICU root collation's primary-strength
case insensitivity on ASCII (so `"a"` sorts before `"B"`): compares
lower-case-folded characters.  Used only to instantiate the collation
parameter in witnesses. -/
def demoCollate : String → String → Int :=
  collateOfKey (fun s => s.data.map Char.toLower)

/-- `handleVerifyOpenAI` (SettingsModal.tsx lines 91-147), reduced to its
observable outcome.  The `fetch` of `{baseUrl}/models` is modelled by the
`resp` parameter and the host's `localeCompare` collation by `lc`. -/
def handleVerifyOpenAI (lc : String → String → Int) (apiKey : String)
    (baseUrl : Option String) (resp : ProbeResponse) : VerifyOutcome :=
  if apiKey = "" then VerifyOutcome.failed ("请先输入 API Key")
  else if httpOk resp.status = false then
    VerifyOutcome.failed (("HTTP ") ++ toString resp.status)
  else
    match resp.body with
    | ProbeBody.modelsArray ds =>
      let modelsFromApi := sortByValue lc (ds.map (fun m => (m.id, m.id)))
      if modelsFromApi.length = 0 then VerifyOutcome.failed ("未找到模型")
      else VerifyOutcome.verified modelsFromApi
    | ProbeBody.notAnArray => VerifyOutcome.failed ("格式错误")

/-- `validateGeminiConnection(apiKey)` (geminiService lines 166-180): guard on
the key, then a ping whose failure message is rethrown (`e.message || "验证失败"`).
`pingError = none` models a successful ping. -/
def validateGeminiConnection (apiKey : String) (pingError : Option String) :
    Except JsErr Bool :=
  if apiKey = "" then Except.error (JsErr.jsError ("请输入 API Key"))
  else
    match pingError with
    | none => Except.ok true
    | some e => Except.error (JsErr.jsError (if e = "" then ("验证失败") else e))

/-- `handleVerifyGemini` (SettingsModal.tsx lines 150-172), reduced to its
observable outcome. -/
def handleVerifyGemini (apiKey : String) (pingError : Option String) : VerifyOutcome :=
  if apiKey = "" then VerifyOutcome.failed ("请先输入 API Key")
  else
    match validateGeminiConnection apiKey pingError with
    | Except.ok _ => VerifyOutcome.verified []
    | Except.error _ => VerifyOutcome.failed ("验证失败，请检查 Key")

/-! ## Dispatcher (`generateWeeklyPlan`, lines 183-202) -/

/-- Models the `Intl.DateTimeFormat('zh-CN', { timeZone: tz, ... })`
construction plus `format(now)` (ECMA-402): the constructor throws a
`RangeError` on an invalid or unsupported time zone.  Zone validity and the
formatted output are parameters of the embedding. -/
def intlFormatDate (tzValid : String → Bool) (formatNow : String → String)
    (tz : String) : Except JsErr String :=
  if tzValid tz then Except.ok (formatNow tz)
  else Except.error (JsErr.jsRangeError (("Invalid time zone specified: ") ++ tz))

/-- `generateWeeklyPlan(goalText, settings)`: computes the date context, then
dispatches on `settings.provider === 'openai'`.  There is no `try/catch`
here, so a formatter `RangeError` propagates to the caller unchanged. -/
def generateWeeklyPlan (tzValid : String → Bool) (formatNow : String → String)
    (goalText : String) (st : AppSettings) (envKey : Option String)
    (geminiResponseText : String) (openaiResponse : HttpResponse) :
    Except JsErr Json :=
  match intlFormatDate tzValid formatNow st.timezone with
  | Except.error e => Except.error e
  | Except.ok dateStr =>
    if st.provider = "openai" then generateWithOpenAI goalText st dateStr openaiResponse
    else generateWithGemini goalText st dateStr envKey geminiResponseText

/-- The `json` tag of the tagged fence: `fenceJsonL = fence3L ++ jsonTagL`. -/
def jsonTagL : List Char := ['j', 's', 'o', 'n']

/-! ## Helper lemmas -/

theorem startsWithL_self_append (p t : List Char) : startsWithL p (p ++ t) = true := by
  induction p with
  | nil => rfl
  | cons c cs ih => simp [startsWithL, ih]

theorem startsWithL_prepend (p q s : List Char) :
    startsWithL (p ++ q) (p ++ s) = startsWithL q s := by
  induction p with
  | nil => rfl
  | cons c cs ih => simp [startsWithL, ih]

theorem startsWithL_append_left_false {p s : List Char} (q : List Char)
    (h : startsWithL p s = false) : startsWithL (p ++ q) s = false := by
  induction p generalizing s with
  | nil => simp [startsWithL] at h
  | cons c cs ih =>
    cases s with
    | nil => rfl
    | cons d ds =>
      simp only [startsWithL, List.cons_append] at h ⊢
      rcases hcd : (c == d) with _ | _
      · simp [hcd]
      · simp only [hcd, Bool.true_and] at h ⊢
        exact ih h

theorem skipWs_cons_of_not_ws {c : Char} (cs : List Char) (h : isJsWs c = false) :
    skipWs (c :: cs) = c :: cs := by
  simp [skipWs, h]

theorem trimListChars_cons_concat (a b : Char) (mid : List Char)
    (ha : isJsWs a = false) (hb : isJsWs b = false) :
    trimListChars (a :: (mid ++ [b])) = a :: (mid ++ [b]) := by
  unfold trimListChars
  rw [skipWs_cons_of_not_ws _ ha]
  rw [show List.reverse (a :: (mid ++ [b])) = b :: (mid.reverse ++ [a]) by simp]
  rw [skipWs_cons_of_not_ws _ hb]
  simp

theorem listSuffix_eq_of_length {l₁ l₂ L : List Char}
    (h₁ : ∃ a, a ++ l₁ = L) (h₂ : ∃ b, b ++ l₂ = L)
    (h : l₁.length = l₂.length) : l₁ = l₂ := by
  rcases h₁ with ⟨a, rfl⟩
  rcases h₂ with ⟨b, hb⟩
  exact ((List.append_inj' hb (by rw [h])).2).symm

/-! ## C6: base-URL normalization -/

/-- C6: for every Freeform configuration the effective base URL removes
exactly one trailing slash when one is present (a second one is kept),
defaults to the canonical OpenAI endpoint when `baseUrl` is unset or empty,
and the generate adapter and the models probe normalize identically. -/
theorem c6_baseurl_normalization :
    (∀ u : Option String, normalizeBaseUrlGenerate u = normalizeBaseUrlProbe u) ∧
    normalizeBaseUrlGenerate none = openaiDefaultBaseUrl ∧
    normalizeBaseUrlGenerate (some ("")) = openaiDefaultBaseUrl ∧
    (∀ t : String, normalizeBaseUrlGenerate (some (t ++ ("/"))) = t) ∧
    (∀ s : String, s ≠ "" → jsEndsWith s ("/") = false →
      normalizeBaseUrlGenerate (some s) = s) := by
  refine ⟨fun u => rfl, rfl, rfl, fun t => ?_, fun s hs he => ?_⟩
  · have hne : (t ++ ("/") : String) ≠ "" := by
      intro h
      have := congrArg String.data h
      simp [String.data_append] at this
    have hend : jsEndsWith (t ++ ("/")) ("/") = true := by
      simp [jsEndsWith, String.data_append, List.reverse_append, startsWithL]
    unfold normalizeBaseUrlGenerate
    simp only [Option.getD_some, if_neg hne, hend, if_true]
    apply String.ext
    simp [jsSliceDropLast, String.data_append]
  · unfold normalizeBaseUrlGenerate
    simp only [Option.getD_some, if_neg hs, he]
    simp

/-- C6 witness: one trailing slash is removed (a second is kept), and unset
defaults to the canonical endpoint. -/
theorem c6_baseurl_normalization_witness :
    normalizeBaseUrlGenerate (some ("https://api.deepseek.com/v1/"))
      = ("https://api.deepseek.com/v1") ∧
    normalizeBaseUrlGenerate (some ("https://x//")) = ("https://x/") ∧
    normalizeBaseUrlGenerate none = openaiDefaultBaseUrl := by
  refine ⟨?_, ?_, c6_baseurl_normalization.2.1⟩
  · have h := c6_baseurl_normalization.2.2.2.1 ("https://api.deepseek.com/v1")
    exact h
  · have h := c6_baseurl_normalization.2.2.2.1 ("https://x/")
    exact h

/-! ## C10: provider dispatch -/

/-- C10: only the exact provider string `"openai"` selects the Freeform
adapter; every other value (including values outside the declared enum)
dispatches to the Schema-Enforced (Gemini) adapter. -/
theorem c10_provider_dispatch (tzValid : String → Bool) (formatNow : String → String)
    (g : String) (st : AppSettings) (env : Option String) (gt : String)
    (resp : HttpResponse) (h : tzValid st.timezone = true) :
    (st.provider = "openai" →
      generateWeeklyPlan tzValid formatNow g st env gt resp
        = generateWithOpenAI g st (formatNow st.timezone) resp) ∧
    (st.provider ≠ "openai" →
      generateWeeklyPlan tzValid formatNow g st env gt resp
        = generateWithGemini g st (formatNow st.timezone) env gt) := by
  constructor <;> intro hp <;>
    simp [generateWeeklyPlan, intlFormatDate, h, hp]

/-- C10 witness: an out-of-enum provider string (`"OPENAI"`) runs the Gemini
adapter (observably: it succeeds via the process-level key even though the
config key is empty), while the exact string `"openai"` runs the Freeform
adapter (observably: it fails on the empty config key). -/
theorem c10_provider_dispatch_witness :
    generateWeeklyPlan (fun _ => true) (fun _ => ("2025年1月1日星期三")) ("目标")
        ⟨("OPENAI"), (""), ("gpt-4o"), ("UTC"), none⟩ (some ("k")) ("true")
        ⟨200, ("OK"), ("x")⟩
      = Except.ok (Json.bool true) ∧
    generateWeeklyPlan (fun _ => true) (fun _ => ("2025年1月1日星期三")) ("目标")
        ⟨("openai"), (""), ("gpt-4o"), ("UTC"), none⟩ (some ("k")) ("true")
        ⟨200, ("OK"), ("x")⟩
      = Except.error (JsErr.jsError openaiMissingKeyMsg) := by
  constructor
  · have h := (c10_provider_dispatch (fun _ => true) (fun _ => ("2025年1月1日星期三"))
      ("目标") ⟨("OPENAI"), (""), ("gpt-4o"), ("UTC"), none⟩ (some ("k")) ("true")
      ⟨200, ("OK"), ("x")⟩ rfl).2 (by decide)
    rw [h]
    rfl
  · have h := (c10_provider_dispatch (fun _ => true) (fun _ => ("2025年1月1日星期三"))
      ("目标") ⟨("openai"), (""), ("gpt-4o"), ("UTC"), none⟩ (some ("k")) ("true")
      ⟨200, ("OK"), ("x")⟩ rfl).1 rfl
    rw [h]
    rfl

/-! ## C8: Gemini key resolution -/

/-- C8: the Schema-Enforced adapter's effective key is the configured key
when non-empty, else the process-level default; the call fails with the
missing-credential error iff both are absent (empty or unset). -/
theorem c8_gemini_key_resolution (st : AppSettings) (env : Option String) :
    (st.apiKey ≠ "" → geminiEffectiveKey st.apiKey env = st.apiKey) ∧
    (st.apiKey = "" → geminiEffectiveKey st.apiKey env = env.getD "") ∧
    (∀ g d text, generateWithGemini g st d env text
        = Except.error (JsErr.jsError geminiMissingKeyMsg)
      ↔ st.apiKey = "" ∧ env.getD "" = "") := by
  refine ⟨fun h => by simp [geminiEffectiveKey, h],
          fun h => by simp [geminiEffectiveKey, h],
          fun g d text => ⟨fun h => ?_, fun h => by
            simp [generateWithGemini, geminiEffectiveKey, h.1, h.2]⟩⟩
  by_cases hk : geminiEffectiveKey st.apiKey env = ""
  · unfold geminiEffectiveKey at hk
    by_cases ha : st.apiKey = ""
    · exact ⟨ha, by simpa [ha] using hk⟩
    · rw [if_neg ha] at hk
      exact absurd hk ha
  · exfalso
    unfold generateWithGemini at h
    rw [if_neg hk] at h
    unfold geminiProcessText at h
    by_cases ht : text = ""
    · rw [if_pos ht] at h
      injection h with h'
      injection h' with h''
      exact absurd h'' (by decide)
    · rw [if_neg ht] at h
      rcases hp : JSON.parse text with _ | v
      · rw [hp] at h
        injection h with h'
        exact JsErr.noConfusion h'
      · rw [hp] at h
        exact Except.noConfusion h

/-- C8 witness: with both keys absent the adapter fails with the
missing-credential error; with a process key present it does not. -/
theorem c8_gemini_key_resolution_witness :
    generateWithGemini ("g") ⟨("gemini"), (""), ("m"), ("UTC"), none⟩ ("d") none ("true")
      = Except.error (JsErr.jsError geminiMissingKeyMsg) ∧
    geminiEffectiveKey ("") (some ("env-key")) = ("env-key") := by
  constructor
  · exact ((c8_gemini_key_resolution ⟨("gemini"), (""), ("m"), ("UTC"), none⟩ none).2.2
      ("g") ("d") ("true")).mpr ⟨rfl, rfl⟩
  · exact (c8_gemini_key_resolution ⟨("gemini"), (""), ("m"), ("UTC"), none⟩
      (some ("env-key"))).2.1 rfl

/-! ## C4: empty API key -/

/-- C4 counterexample: with an empty config `apiKey` but a process-level
default key present, the Schema-Enforced generate call does not fail with
the missing-credential error — it proceeds and succeeds (so the claim's
"each provider fails with MissingCredential on empty apiKey" is false). -/
theorem c4_empty_key_counterexample :
    generateWithGemini ("本周目标") ⟨("gemini"), (""), ("gemini-2.5-flash"), ("Asia/Shanghai"), none⟩
        ("2025年1月1日") (some ("env-key")) ("true")
      = Except.ok (Json.bool true) ∧
    ∀ e : JsErr,
      generateWithGemini ("本周目标") ⟨("gemini"), (""), ("gemini-2.5-flash"), ("Asia/Shanghai"), none⟩
          ("2025年1月1日") (some ("env-key")) ("true")
        ≠ Except.error e := by
  have h1 : generateWithGemini ("本周目标")
      ⟨("gemini"), (""), ("gemini-2.5-flash"), ("Asia/Shanghai"), none⟩
      ("2025年1月1日") (some ("env-key")) ("true") = Except.ok (Json.bool true) := rfl
  exact ⟨h1, fun e h => by rw [h1] at h; exact Except.noConfusion h⟩

/-- C4 (amended): with an empty config `apiKey`, the Freeform generate call
and both validation probes fail with a missing-credential message whatever
the network response would have been (no network call is consulted), and the
Schema-Enforced generate call does so exactly when the process-level default
credential is also absent. -/
theorem c4_empty_key_amended (lc : String → String → Int) (st : AppSettings)
    (env : Option String)
    (g d text : String) (resp : HttpResponse) (bu : Option String)
    (pb : ProbeResponse) (ping : Option String) (hk : st.apiKey = "") :
    generateWithOpenAI g st d resp = Except.error (JsErr.jsError openaiMissingKeyMsg) ∧
    handleVerifyOpenAI lc st.apiKey bu pb = VerifyOutcome.failed ("请先输入 API Key") ∧
    handleVerifyGemini st.apiKey ping = VerifyOutcome.failed ("请先输入 API Key") ∧
    validateGeminiConnection st.apiKey ping = Except.error (JsErr.jsError ("请输入 API Key")) ∧
    (env.getD "" = "" →
      generateWithGemini g st d env text = Except.error (JsErr.jsError geminiMissingKeyMsg)) := by
  refine ⟨?_, ?_, ?_, ?_, fun he => ?_⟩
  · simp [generateWithOpenAI, hk]
  · simp [handleVerifyOpenAI, hk]
  · simp [handleVerifyGemini, hk]
  · simp [validateGeminiConnection, hk]
  · simp [generateWithGemini, geminiEffectiveKey, hk, he]

/-- C4 witness: the amended statement at a concrete empty-key configuration,
for two different would-be network responses (the result is the same). -/
theorem c4_empty_key_amended_witness :
    generateWithOpenAI ("g") ⟨("openai"), (""), ("gpt-4o"), ("UTC"), none⟩ ("d")
        ⟨200, ("OK"), ("irrelevant")⟩
      = Except.error (JsErr.jsError openaiMissingKeyMsg) ∧
    generateWithOpenAI ("g") ⟨("openai"), (""), ("gpt-4o"), ("UTC"), none⟩ ("d")
        ⟨500, ("Server Error"), ("other")⟩
      = Except.error (JsErr.jsError openaiMissingKeyMsg) ∧
    handleVerifyGemini ("") none = VerifyOutcome.failed ("请先输入 API Key") ∧
    generateWithGemini ("g") ⟨("gemini"), (""), ("m"), ("UTC"), none⟩ ("d") none ("true")
      = Except.error (JsErr.jsError geminiMissingKeyMsg) := by
  have h1 := c4_empty_key_amended demoCollate
    ⟨("openai"), (""), ("gpt-4o"), ("UTC"), none⟩ none
    ("g") ("d") ("t") ⟨200, ("OK"), ("irrelevant")⟩ none ⟨200, ProbeBody.notAnArray⟩ none rfl
  have h2 := c4_empty_key_amended demoCollate
    ⟨("gemini"), (""), ("m"), ("UTC"), none⟩ none
    ("g") ("d") ("true") ⟨500, ("Server Error"), ("other")⟩ none ⟨200, ProbeBody.notAnArray⟩ none rfl
  exact ⟨h1.1, h2.1, h1.2.2.1, h2.2.2.2.2 rfl⟩

/-! ## C2: parse failure vs conformance -/

/-- C2 counterexample: the payload `42` is valid JSON but does not conform to
the `WeeklyPlanResponse` shape, yet both adapters return it successfully —
no call fails with a malformed-response error, because the code performs no
conformance check (its `as`-cast is compile-time only). -/
theorem c2_conformance_counterexample :
    JSON.parse ("42") = some (Json.num ("42")) ∧
    specDecodeWeeklyPlan (Json.num ("42")) = none ∧
    geminiProcessText ("42") = Except.ok (Json.num ("42")) ∧
    openaiContentStage ("42") = Except.ok (Json.num ("42")) ∧
    (∀ e : JsErr, geminiProcessText ("42") ≠ Except.error e) ∧
    (∀ e : JsErr, openaiContentStage ("42") ≠ Except.error e) := by
  have h1 : geminiProcessText ("42") = Except.ok (Json.num ("42")) := rfl
  have h2 : openaiContentStage ("42") = Except.ok (Json.num ("42")) := rfl
  exact ⟨rfl, rfl, h1, h2,
    fun e h => by rw [h1] at h; exact Except.noConfusion h,
    fun e h => by rw [h2] at h; exact Except.noConfusion h⟩

/-- C2 (amended): for every non-empty text payload, each adapter fails with
the JSON-parse (malformed) error exactly when the payload (after fence
stripping, for the Freeform adapter) is not parseable JSON, and otherwise
returns the parsed JSON value as-is, with no conformance check against the
`WeeklyPlanResponse` shape. -/
theorem c2_parse_behaviour (content : String) (h : content ≠ "") :
    (∀ v, JSON.parse content = some v → geminiProcessText content = Except.ok v) ∧
    (JSON.parse content = none →
      geminiProcessText content = Except.error (JsErr.jsSyntaxError content)) ∧
    (∀ v, JSON.parse (cleanJson content) = some v →
      openaiContentStage content = Except.ok v) ∧
    (JSON.parse (cleanJson content) = none →
      openaiContentStage content = Except.error (JsErr.jsSyntaxError (cleanJson content))) := by
  refine ⟨fun v hv => ?_, fun hn => ?_, fun v hv => ?_, fun hn => ?_⟩ <;>
    simp [geminiProcessText, openaiContentStage, h, *]

/-- C2 witness: the amended statement evaluated at parseable and unparseable
payloads. -/
theorem c2_parse_behaviour_witness :
    geminiProcessText ("42") = Except.ok (Json.num ("42")) ∧
    geminiProcessText ("\x7b\"refinedGoal\":") = Except.error (JsErr.jsSyntaxError ("\x7b\"refinedGoal\":")) ∧
    openaiContentStage ("not json") = Except.error (JsErr.jsSyntaxError (cleanJson ("not json"))) := by
  refine ⟨(c2_parse_behaviour ("42") (by decide)).1 (Json.num ("42")) rfl,
          (c2_parse_behaviour ("\x7b\"refinedGoal\":") (by decide)).2.1 rfl,
          (c2_parse_behaviour ("not json") (by decide)).2.2.2 rfl⟩

/-! ## C3: invalid timezone -/

/-- C3: with an invalid or unsupported timezone, the dispatcher lets the
platform `RangeError` thrown by the `Intl.DateTimeFormat` constructor
propagate unchanged: `generateWeeklyPlan` rejects with that `RangeError`,
and no dispatcher-level typed error exists (the modelled error type `JsErr`
enumerates every throw site of the code; none is a typed InvalidTimezone). -/
theorem c3_invalid_timezone_rangeerror (tzValid : String → Bool)
    (formatNow : String → String) (g : String) (st : AppSettings)
    (env : Option String) (gt : String) (resp : HttpResponse)
    (h : tzValid st.timezone = false) :
    generateWeeklyPlan tzValid formatNow g st env gt resp
      = Except.error (JsErr.jsRangeError (("Invalid time zone specified: ") ++ st.timezone)) := by
  simp [generateWeeklyPlan, intlFormatDate, h]

/-- C3 witness: a concrete invalid zone makes `generateWeeklyPlan` reject
with the propagated platform `RangeError`. -/
theorem c3_invalid_timezone_rangeerror_witness :
    generateWeeklyPlan (fun _ => false) (fun _ => ("")) ("g")
        ⟨("gemini"), ("key"), ("m"), ("Invalid/Zone"), none⟩ none ("")
        ⟨200, ("OK"), ("")⟩
      = Except.error (JsErr.jsRangeError ("Invalid time zone specified: Invalid/Zone")) := by
  have h := c3_invalid_timezone_rangeerror (fun _ => false) (fun _ => (""))
    ("g") ⟨("gemini"), ("key"), ("m"), ("Invalid/Zone"), none⟩ none ("")
    ⟨200, ("OK"), ("")⟩ rfl
  exact h

/-! ## C5: models probe -/

theorem lexLe_total (a b : List Char) : lexLe a b = true ∨ lexLe b a = true := by
  induction a generalizing b with
  | nil => left; rfl
  | cons x xs ih =>
    cases b with
    | nil => right; rfl
    | cons y ys =>
      rcases lt_trichotomy x y with h | h | h
      · left; simp [lexLe, h]
      · subst h
        rcases ih ys with h' | h' <;> [left; right] <;> simp [lexLe, h']
      · right; simp [lexLe, h]

theorem lexLe_trans {a b c : List Char} (h₁ : lexLe a b = true) (h₂ : lexLe b c = true) :
    lexLe a c = true := by
  induction a generalizing b c with
  | nil => rfl
  | cons x xs ih =>
    cases b with
    | nil => simp [lexLe] at h₁
    | cons y ys =>
      cases c with
      | nil => simp [lexLe] at h₂
      | cons z zs =>
        simp only [lexLe] at h₁ h₂ ⊢
        rcases lt_trichotomy x y with hxy | hxy | hxy
        · rcases lt_trichotomy y z with hyz | hyz | hyz
          · simp [lt_trans hxy hyz]
          · subst hyz; simp [hxy]
          · rw [if_neg (asymm hyz), if_pos hyz] at h₂
            exact Bool.noConfusion h₂
        · subst hxy
          rcases lt_trichotomy x z with hxz | hxz | hxz
          · simp [hxz]
          · subst hxz
            rw [if_neg (lt_irrefl x), if_neg (lt_irrefl x)] at h₁ h₂ ⊢
            exact ih h₁ h₂
          · rw [if_neg (asymm hxz), if_pos hxz] at h₂
            exact Bool.noConfusion h₂
        · rw [if_neg (asymm hxy), if_pos hxy] at h₁
          exact Bool.noConfusion h₁

theorem collateOfKey_le_iff (key : String → List Char) (a b : String) :
    collateOfKey key a b ≤ 0 ↔ lexLe (key a) (key b) = true := by
  unfold collateOfKey
  by_cases h : lexLe (key a) (key b) = true
  · rw [if_pos h]
    constructor
    · intro _
      exact h
    · intro _
      split <;> decide
  · rw [if_neg h]
    constructor
    · intro h1
      exact absurd h1 (by decide)
    · intro h1
      exact absurd h1 h

theorem collateOfKey_total (key : String → List Char) (a b : String) :
    collateOfKey key a b ≤ 0 ∨ collateOfKey key b a ≤ 0 := by
  rcases lexLe_total (key a) (key b) with h | h
  · exact Or.inl ((collateOfKey_le_iff key a b).mpr h)
  · exact Or.inr ((collateOfKey_le_iff key b a).mpr h)

theorem collateOfKey_trans (key : String → List Char) (a b c : String)
    (h₁ : collateOfKey key a b ≤ 0) (h₂ : collateOfKey key b c ≤ 0) :
    collateOfKey key a c ≤ 0 :=
  (collateOfKey_le_iff key a c).mpr
    (lexLe_trans ((collateOfKey_le_iff key a b).mp h₁)
      ((collateOfKey_le_iff key b c).mp h₂))

/-- C5: for every consistent host collation `lc` (its before-or-equal
relation total and transitive, as ICU's `localeCompare` order is), on a 2xx
`/models` response whose descriptor array is non-empty the probe returns the
descriptors mapped to `(id, label = id)` pairs sorted ascending by the
collation on ids; an empty array is reported as a failure (`未找到模型`)
despite the successful HTTP status. -/
theorem c5_models_probe (lc : String → String → Int) (apiKey : String)
    (baseUrl : Option String) (status : Nat) (ds : List ModelDescriptor)
    (hk : apiKey ≠ "") (hok : httpOk status = true)
    (htotal : ∀ a b : String, lc a b ≤ 0 ∨ lc b a ≤ 0)
    (htrans : ∀ a b c : String, lc a b ≤ 0 → lc b c ≤ 0 → lc a c ≤ 0) :
    (ds = [] → handleVerifyOpenAI lc apiKey baseUrl ⟨status, ProbeBody.modelsArray ds⟩
      = VerifyOutcome.failed ("未找到模型")) ∧
    (ds ≠ [] →
      handleVerifyOpenAI lc apiKey baseUrl ⟨status, ProbeBody.modelsArray ds⟩
        = VerifyOutcome.verified (sortByValue lc (ds.map (fun m => (m.id, m.id)))) ∧
      List.Sorted (fun (a b : String × String) => lc a.1 b.1 ≤ 0)
        (sortByValue lc (ds.map (fun m => (m.id, m.id)))) ∧
      (sortByValue lc (ds.map (fun m => (m.id, m.id)))).Perm
        (ds.map (fun m => (m.id, m.id))) ∧
      (∀ p ∈ sortByValue lc (ds.map (fun m => (m.id, m.id))), p.2 = p.1)) := by
  haveI : IsTotal (String × String) (fun a b => lc a.1 b.1 ≤ 0) :=
    ⟨fun a b => htotal a.1 b.1⟩
  haveI : IsTrans (String × String) (fun a b => lc a.1 b.1 ≤ 0) :=
    ⟨fun _ _ _ h₁ h₂ => htrans _ _ _ h₁ h₂⟩
  constructor
  · intro hnil
    subst hnil
    simp [handleVerifyOpenAI, hk, hok, sortByValue]
  · intro hnil
    have hlen : (sortByValue lc (ds.map (fun m => (m.id, m.id)))).length ≠ 0 := by
      rw [sortByValue, (List.perm_insertionSort _ _).length_eq, List.length_map]
      exact fun h0 => hnil (List.length_eq_zero.mp h0)
    refine ⟨by simp [handleVerifyOpenAI, hk, hok, hlen], ?_, ?_, ?_⟩
    · exact List.sorted_insertionSort _ _
    · exact List.perm_insertionSort _ _
    · intro p hp
      have hmem : p ∈ ds.map (fun m => (m.id, m.id)) :=
        ((List.perm_insertionSort _ _).mem_iff).mp hp
      rcases List.mem_map.mp hmem with ⟨m, _, hm⟩
      rw [← hm]

/-- C5 witness: under a concrete ICU-like case-insensitive collation
(`"a"` before `"B"`, unlike code-point order), unsorted ids come back sorted
by the collation with `label = id`, and an empty descriptor array fails
despite HTTP 200. -/
theorem c5_models_probe_witness :
    handleVerifyOpenAI demoCollate ("sk-test") none ⟨200, ProbeBody.modelsArray []⟩
      = VerifyOutcome.failed ("未找到模型") ∧
    handleVerifyOpenAI demoCollate ("sk-test") none
        ⟨200, ProbeBody.modelsArray [⟨("B")⟩, ⟨("a")⟩]⟩
      = VerifyOutcome.verified [(("a"), ("a")), (("B"), ("B"))] ∧
    handleVerifyOpenAI demoCollate ("sk-test") none
        ⟨200, ProbeBody.modelsArray [⟨("gpt-4o")⟩, ⟨("deepseek-chat")⟩]⟩
      = VerifyOutcome.verified
          [(("deepseek-chat"), ("deepseek-chat")), (("gpt-4o"), ("gpt-4o"))] := by
  refine ⟨(c5_models_probe demoCollate ("sk-test") none 200 [] (by decide) (by decide)
      (collateOfKey_total _) (collateOfKey_trans _)).1 rfl, ?_, ?_⟩
  · have h := (c5_models_probe demoCollate ("sk-test") none 200 [⟨("B")⟩, ⟨("a")⟩]
      (by decide) (by decide) (collateOfKey_total _) (collateOfKey_trans _)).2 (by decide)
    rw [h.1]
    rfl
  · have h := (c5_models_probe demoCollate ("sk-test") none 200
      [⟨("gpt-4o")⟩, ⟨("deepseek-chat")⟩] (by decide) (by decide)
      (collateOfKey_total _) (collateOfKey_trans _)).2 (by decide)
    rw [h.1]
    rfl

/-! ## C7: non-success HTTP status -/

/-- C7: a non-2xx response makes the Freeform generate call fail with a
message carrying the numeric status code, the status text and the response
body text, and makes the models probe fail with `HTTP <status>`; each
consumes its single response, so no retry is possible. -/
theorem c7_request_failed (lc : String → String → Int) (g : String)
    (st : AppSettings) (d : String)
    (resp : HttpResponse) (k2 : String) (bu : Option String) (pb : ProbeBody)
    (hk : st.apiKey ≠ "") (hk2 : k2 ≠ "") (hbad : httpOk resp.status = false) :
    generateWithOpenAI g st d resp
      = Except.error (JsErr.jsError (openaiRequestFailedMsg resp)) ∧
    strContains (toString resp.status) (openaiRequestFailedMsg resp) ∧
    strContains resp.bodyText (openaiRequestFailedMsg resp) ∧
    handleVerifyOpenAI lc k2 bu ⟨resp.status, pb⟩
      = VerifyOutcome.failed (("HTTP ") ++ toString resp.status) ∧
    strContains (toString resp.status) (("HTTP ") ++ toString resp.status) := by
  refine ⟨by simp [generateWithOpenAI, hk, hbad], ?_, ?_,
    by simp [handleVerifyOpenAI, hk2, hbad], ?_⟩
  · refine ⟨("API Request failed: ").data,
      ((" ") ++ resp.statusText ++ (" - ") ++ resp.bodyText).data, ?_⟩
    simp [openaiRequestFailedMsg, String.data_append, List.append_assoc]
  · refine ⟨(("API Request failed: ") ++ toString resp.status ++ (" ")
      ++ resp.statusText ++ (" - ")).data, [], ?_⟩
    simp [openaiRequestFailedMsg, String.data_append, List.append_assoc]
  · exact ⟨("HTTP ").data, [], by simp [String.data_append]⟩

/-- C7 witness: a mocked 401 response yields failures whose messages carry
`401` (and, for generate, the response body). -/
theorem c7_request_failed_witness :
    generateWithOpenAI ("g") ⟨("openai"), ("sk-test"), ("gpt-4o"), ("UTC"), none⟩ ("d")
        ⟨401, ("Unauthorized"), ("Invalid API key")⟩
      = Except.error (JsErr.jsError ("API Request failed: 401 Unauthorized - Invalid API key")) ∧
    handleVerifyOpenAI demoCollate ("sk-test") none ⟨401, ProbeBody.notAnArray⟩
      = VerifyOutcome.failed ("HTTP 401") := by
  have h := c7_request_failed demoCollate ("g")
    ⟨("openai"), ("sk-test"), ("gpt-4o"), ("UTC"), none⟩
    ("d") ⟨401, ("Unauthorized"), ("Invalid API key")⟩ ("sk-test") none
    ProbeBody.notAnArray (by decide) (by decide) (by decide)
  constructor
  · rw [h.1]
    rfl
  · rw [h.2.2.2.1]
    rfl

/-! ## C1: fence stripping -/

theorem startsWithL_jsonTag_extend {c : List Char} (h : startsWithL jsonTagL c = false) :
    startsWithL jsonTagL (c ++ fence3L) = false := by
  have h1 : startsWithL ['s', 'o', 'n'] fence3L = false := by decide
  have h2 : startsWithL ['o', 'n'] fence3L = false := by decide
  have h3 : startsWithL ['n'] fence3L = false := by decide
  have hsb : ('s' == btick) = false := by decide
  have hob : ('o' == btick) = false := by decide
  have hnb : ('n' == btick) = false := by decide
  rcases c with _ | ⟨a, _ | ⟨b, _ | ⟨d, _ | ⟨e, rest⟩⟩⟩⟩
  · decide
  · simp [jsonTagL, startsWithL, fence3L, hsb]
  · simp [jsonTagL, startsWithL, fence3L, hob]
  · simp [jsonTagL, startsWithL, fence3L, hnb]
  · simp only [jsonTagL, startsWithL, List.cons_append] at h ⊢
    exact h

theorem cleanChars_wrapJson (c : List Char) :
    cleanChars (fenceJsonL ++ c ++ fence3L) = c := by
  have hb : isJsWs btick = false := by decide
  have hshape : fenceJsonL ++ c ++ fence3L
      = btick :: (([btick, btick, 'j', 's', 'o', 'n'] ++ c ++ [btick, btick]) ++ [btick]) := by
    simp [fenceJsonL, fence3L]
  have htrim : trimListChars (fenceJsonL ++ c ++ fence3L) = fenceJsonL ++ c ++ fence3L := by
    rw [hshape]
    exact trimListChars_cons_concat _ _ _ hb hb
  have hstart : startsWithL fenceJsonL (fenceJsonL ++ c ++ fence3L) = true := by
    rw [List.append_assoc]
    exact startsWithL_self_append _ _
  have hdrop : (fenceJsonL ++ c ++ fence3L).drop 7 = c ++ fence3L := by
    rw [List.append_assoc, show (7 : Nat) = fenceJsonL.length from rfl]
    exact List.drop_left _ _
  have hend : startsWithL (List.reverse fence3L) (List.reverse (c ++ fence3L)) = true := by
    rw [List.reverse_append, show List.reverse fence3L = fence3L from by decide]
    exact startsWithL_self_append _ _
  have htake : dropRightL 3 (c ++ fence3L) = c := by
    unfold dropRightL
    rw [List.length_append, show fence3L.length = 3 from rfl, Nat.add_sub_cancel]
    exact List.take_left _ _
  unfold cleanChars
  rw [htrim]
  simp only [hstart, if_true, hdrop, hend, htake]

theorem cleanChars_wrapBare (c : List Char) (h4 : startsWithL jsonTagL c = false) :
    cleanChars (fence3L ++ c ++ fence3L) = c := by
  have hb : isJsWs btick = false := by decide
  have hshape : fence3L ++ c ++ fence3L
      = btick :: (([btick, btick] ++ c ++ [btick, btick]) ++ [btick]) := by
    simp [fence3L]
  have htrim : trimListChars (fence3L ++ c ++ fence3L) = fence3L ++ c ++ fence3L := by
    rw [hshape]
    exact trimListChars_cons_concat _ _ _ hb hb
  have hjson : startsWithL fenceJsonL (fence3L ++ c ++ fence3L) = false := by
    rw [show fenceJsonL = fence3L ++ jsonTagL from rfl, List.append_assoc, startsWithL_prepend]
    exact startsWithL_jsonTag_extend h4
  have hstart : startsWithL fence3L (fence3L ++ c ++ fence3L) = true := by
    rw [List.append_assoc]
    exact startsWithL_self_append _ _
  have hdrop : (fence3L ++ c ++ fence3L).drop 3 = c ++ fence3L := by
    rw [List.append_assoc, show (3 : Nat) = fence3L.length from rfl]
    exact List.drop_left _ _
  have hend : startsWithL (List.reverse fence3L) (List.reverse (c ++ fence3L)) = true := by
    rw [List.reverse_append, show List.reverse fence3L = fence3L from by decide]
    exact startsWithL_self_append _ _
  have htake : dropRightL 3 (c ++ fence3L) = c := by
    unfold dropRightL
    rw [List.length_append, show fence3L.length = 3 from rfl, Nat.add_sub_cancel]
    exact List.take_left _ _
  unfold cleanChars
  rw [htrim]
  simp only [hjson, Bool.false_eq_true, if_false, hstart, if_true, hdrop, hend, htake]

theorem cleanChars_nofence (c : List Char) (ht : trimListChars c = c)
    (h3 : startsWithL fence3L c = false) : cleanChars c = c := by
  have hjson : startsWithL fenceJsonL c = false := by
    rw [show fenceJsonL = fence3L ++ jsonTagL from rfl]
    exact startsWithL_append_left_false _ h3
  unfold cleanChars
  rw [ht]
  simp only [hjson, h3, Bool.false_eq_true, if_false]

/-- C1: for a (whitespace-trimmed, non-empty) JSON text `c` that does not
itself begin with a fence marker or the letters `json` — every JSON text
satisfies the latter two — the Freeform adapter's content handling of `c`
wrapped in a leading ```` ```json ```` (or bare ```` ``` ````) fence and a
trailing ```` ``` ```` fence equals its handling of bare `c`, and unfenced
content is passed to `JSON.parse` unchanged. -/
theorem c1_fence_strip (c : String) (h0 : c ≠ "") (h2 : jsTrim c = c)
    (h3 : jsStartsWith c ("```") = false) (h4 : jsStartsWith c ("json") = false) :
    openaiContentStage (wrapFenceJson c) = openaiContentStage c ∧
    openaiContentStage (wrapFenceBare c) = openaiContentStage c ∧
    cleanJson c = c := by
  have hdata2 : trimListChars c.data = c.data := congrArg String.data h2
  have h3' : startsWithL fence3L c.data = false := h3
  have h4' : startsWithL jsonTagL c.data = false := h4
  have hclean : cleanJson c = c := String.ext (cleanChars_nofence c.data hdata2 h3')
  have hcleanJ : cleanJson (wrapFenceJson c) = c := String.ext (cleanChars_wrapJson c.data)
  have hcleanB : cleanJson (wrapFenceBare c) = c := String.ext (cleanChars_wrapBare c.data h4')
  have hneJ : wrapFenceJson c ≠ "" := by
    intro h
    have hd := congrArg String.data h
    rw [show (wrapFenceJson c).data = fenceJsonL ++ c.data ++ fence3L from rfl] at hd
    simp [fenceJsonL] at hd
  have hneB : wrapFenceBare c ≠ "" := by
    intro h
    have hd := congrArg String.data h
    rw [show (wrapFenceBare c).data = fence3L ++ c.data ++ fence3L from rfl] at hd
    simp [fence3L] at hd
  refine ⟨?_, ?_, hclean⟩
  · unfold openaiContentStage
    rw [if_neg hneJ, if_neg h0, hcleanJ, hclean]
  · unfold openaiContentStage
    rw [if_neg hneB, if_neg h0, hcleanB, hclean]

/-- C1 witness: the fence-wrapped and bare forms of a concrete JSON text
produce identical results (evaluated: the parsed array). -/
theorem c1_fence_strip_witness :
    openaiContentStage (wrapFenceJson ("[1, 2]")) = openaiContentStage ("[1, 2]") ∧
    openaiContentStage (wrapFenceBare ("[1, 2]")) = openaiContentStage ("[1, 2]") ∧
    openaiContentStage ("[1, 2]") = Except.ok (Json.arr [Json.num ("1"), Json.num ("2")]) := by
  have h := c1_fence_strip ("[1, 2]") (by decide) (by decide) (by decide) (by decide)
  exact ⟨h.1, h.2.1, rfl⟩

/-! ## C9: prompt augmentation -/

/-- C9 counterexample: the containment reading of the claim fails — with
`targetIsFreeform = false` and a goal text that itself contains the JSON
format block (prompt injection), the user prompt contains the block even
though the flag is false, so "contains the block iff targetIsFreeform" does
not hold for *every* goal text. -/
theorem c9_contains_counterexample :
    strContains openaiFormatBlock
      ((buildSystemAndUserPrompt ("2025年1月1日星期三") openaiFormatBlock false).2) := by
  refine ⟨(promptP1 ++ ("2025年1月1日星期三") ++ promptP2).data, promptP3.data, ?_⟩
  have h : (buildSystemAndUserPrompt ("2025年1月1日星期三") openaiFormatBlock false).2
      = promptP1 ++ ("2025年1月1日星期三") ++ promptP2 ++ openaiFormatBlock ++ promptP3 := rfl
  rw [h]
  simp [String.data_append, List.append_assoc]

/-- C9 (amended): for every date string and goal text, the user prompt *ends
with* the literal JSON format block — which spells out the field names
`refinedGoal`, `schedule`, `dayName`, `tasks`, `contentIdeas` and the
raw-JSON-only instruction — if and only if `targetIsFreeform` is true (the
builder is a pure function, so determinism is immediate). -/
theorem c9_prompt_shape (d g : String) :
    strSuffix openaiFormatBlock ((buildSystemAndUserPrompt d g true).2) ∧
    ¬ strSuffix openaiFormatBlock ((buildSystemAndUserPrompt d g false).2) ∧
    strContains ("refinedGoal") openaiFormatBlock ∧
    strContains ("schedule") openaiFormatBlock ∧
    strContains ("dayName") openaiFormatBlock ∧
    strContains ("\"tasks\"") openaiFormatBlock ∧
    strContains ("contentIdeas") openaiFormatBlock ∧
    strContains ("Do not add Markdown formatting (like ```json). Just the raw JSON string.")
      openaiFormatBlock := by
  refine ⟨?_, ?_, ⟨blockPreRefinedGoal.data, blockPostRefinedGoal.data, rfl⟩,
    ⟨blockPreSchedule.data, blockPostSchedule.data, rfl⟩,
    ⟨blockPreDayName.data, blockPostDayName.data, rfl⟩,
    ⟨blockPreTasks.data, blockPostTasks.data, rfl⟩,
    ⟨blockPreContentIdeas.data, blockPostContentIdeas.data, rfl⟩,
    ⟨blockPreRawInstr.data, blockPostRawInstr.data, rfl⟩⟩
  · refine ⟨(promptP1 ++ d ++ promptP2 ++ g ++ promptP3).data, ?_⟩
    have h : (buildSystemAndUserPrompt d g true).2
        = promptP1 ++ d ++ promptP2 ++ g ++ promptP3 ++ openaiFormatBlock := rfl
    rw [h]
    simp [String.data_append, List.append_assoc]
  · rintro ⟨t, ht⟩
    have hF : (buildSystemAndUserPrompt d g false).2
        = promptP1 ++ d ++ promptP2 ++ g ++ promptP3 := rfl
    rw [hF, show promptP3 = promptP3Init ++ promptP3Tail from rfl,
      show openaiFormatBlock = openaiFormatBlockInit ++ openaiFormatBlockTail from rfl] at ht
    simp only [String.data_append, ← List.append_assoc] at ht
    have h1 : ∃ a, a ++ openaiFormatBlockTail.data
        = promptP1.data ++ d.data ++ promptP2.data ++ g.data ++ promptP3Init.data
          ++ promptP3Tail.data := ⟨t ++ openaiFormatBlockInit.data, ht⟩
    have h2 : ∃ b, b ++ promptP3Tail.data
        = promptP1.data ++ d.data ++ promptP2.data ++ g.data ++ promptP3Init.data
          ++ promptP3Tail.data :=
      ⟨promptP1.data ++ d.data ++ promptP2.data ++ g.data ++ promptP3Init.data, rfl⟩
    have heq := listSuffix_eq_of_length h1 h2 (by decide)
    exact absurd heq (by decide)

/-- C9 witness: the amended statement at a concrete date and goal. -/
theorem c9_prompt_shape_witness :
    strSuffix openaiFormatBlock
      ((buildSystemAndUserPrompt ("2025年1月1日") ("本周写五篇文章") true).2) ∧
    ¬ strSuffix openaiFormatBlock
      ((buildSystemAndUserPrompt ("2025年1月1日") ("本周写五篇文章") false).2) :=
  ⟨(c9_prompt_shape ("2025年1月1日") ("本周写五篇文章")).1,
   (c9_prompt_shape ("2025年1月1日") ("本周写五篇文章")).2.1⟩
